import Mathlib

/-!
# Verification of the shielded-actions prover against its specification

Shallow embedding of the core of the `shielded-actions` repository:

* the RISC Zero guest program `forwarder_logic` (its `encode_forwarder_call`
  ABI encoder and the `constrain` logic circuit),
* the host-side `shield_logic` payload builder and ERC20 call-data encoders,
* the proof orchestrator (`prover.rs` / `main.rs`): job/proof identifiers,
  job submission and polling, artifact-cache lookup, amount/address parsing.

Bytes are modelled as `Nat` values (< 256 for genuine byte strings); byte
strings as `List Nat`.  Machine integers are `Nat` with explicit `% 2 ^ w`
where overflow matters.  Rust panics are modelled as explicit failure values.
-/

namespace ShieldedActions

/-- Big-endian byte string of length `k` for the value `n % 256 ^ k`
(the semantics of `u64::to_be_bytes` and of 32-byte ABI words). -/
def beBytes : Nat → Nat → List Nat
  | 0, _ => []
  | k + 1, n => beBytes k (n / 256) ++ [n % 256]

/-- Little-endian byte string of length `k` for the value `n % 256 ^ k`
(the semantics of `u64::to_le_bytes` / `u128::to_le_bytes`). -/
def leBytes : Nat → Nat → List Nat
  | 0, _ => []
  | k + 1, n => n % 256 :: leBytes k (n / 256)

/-- Big-endian value of a byte string (each byte taken mod nothing: inputs are
bytes produced by the encoders, all `< 256`). -/
def natOfBytes (l : List Nat) : Nat :=
  l.foldl (fun a b => a * 256 + b) 0

/-- `pad32 n = ceil(n/32)*32`, the padded size of an `n`-byte dynamic field. -/
def pad32 (n : Nat) : Nat := ((n + 31) / 32) * 32

@[simp] theorem beBytes_length (k n : Nat) : (beBytes k n).length = k := by
  induction k generalizing n with
  | zero => rfl
  | succ k ih => simp [beBytes, ih]

theorem beBytes_zero (k : Nat) : beBytes k 0 = List.replicate k 0 := by
  induction k with
  | zero => rfl
  | succ k ih => simp [beBytes, ih, List.replicate_succ' (n := k)]

theorem beBytes_add_eq_replicate_append (j k n : Nat) (h : n < 256 ^ k) :
    beBytes (j + k) n = List.replicate j 0 ++ beBytes k n := by
  induction k generalizing n with
  | zero =>
    interval_cases n
    simp [beBytes, beBytes_zero]
  | succ k ih =>
    have hd : n / 256 < 256 ^ k := by
      rw [Nat.div_lt_iff_lt_mul (by norm_num)]
      calc n < 256 ^ (k + 1) := h
        _ = 256 ^ k * 256 := by ring
    show beBytes (j + k + 1) n = _
    rw [beBytes, beBytes, ih _ hd, List.append_assoc]

theorem natOfBytes_beBytes (k n : Nat) : natOfBytes (beBytes k n) = n % 256 ^ k := by
  induction k generalizing n with
  | zero => simp [beBytes, natOfBytes, Nat.mod_one]
  | succ k ih =>
    have happ : natOfBytes (beBytes k (n / 256) ++ [n % 256])
        = natOfBytes (beBytes k (n / 256)) * 256 + n % 256 := by
      simp [natOfBytes, List.foldl_append]
    have hpow : (256 : Nat) ^ (k + 1) = 256 * 256 ^ k := by ring
    rw [beBytes, happ, ih, hpow, Nat.mod_mul]
    omega

theorem natOfBytes_replicate_zero_append (j : Nat) (l : List Nat) :
    natOfBytes (List.replicate j 0 ++ l) = natOfBytes l := by
  have hz : List.foldl (fun a b => a * 256 + b) 0 (List.replicate j 0) = 0 := by
    induction j with
    | zero => rfl
    | succ j ih => simp [List.replicate_succ, ih]
  simp [natOfBytes, List.foldl_append, hz]

/-! ## The guest ABI encoder (`forwarder_logic/methods/guest/src/main.rs`)

`ForwarderLogicWitness::encode_forwarder_call` builds the ABI encoding of the
tuple `(address forwarder, bytes calldata, bytes expectedOutput)` by hand.
The guest runs on a 32-bit RISC-V target, so `usize` values (vector lengths,
the computed offset) are below `2 ^ 32`; the `as u64` casts in the source are
therefore value-preserving and `u64::to_be_bytes` is `beBytes 8`. -/

/-- `DELETION_CRITERION_NEVER` from both the guest and `shield_logic.rs`. -/
def DELETION_CRITERION_NEVER : Nat := 1

/-- Line-by-line translation of `ForwarderLogicWitness::encode_forwarder_call`. -/
def encode_forwarder_call (forwarder_address call_data expected_output : List Nat) :
    List Nat :=
  let call_data_slot_size := 32 + ((call_data.length + 31) / 32) * 32
  let expected_offset := 96 + call_data_slot_size
  List.replicate 12 0 ++ forwarder_address
    ++ (List.replicate 31 0 ++ [0x60])
    ++ (List.replicate 24 0 ++ beBytes 8 expected_offset)
    ++ (List.replicate 24 0 ++ beBytes 8 call_data.length)
    ++ call_data ++ List.replicate ((32 - call_data.length % 32) % 32) 0
    ++ (List.replicate 24 0 ++ beBytes 8 expected_output.length)
    ++ expected_output ++ List.replicate ((32 - expected_output.length % 32) % 32) 0

theorem pad32_sub (n : Nat) : (32 - n % 32) % 32 = pad32 n - n := by
  unfold pad32; omega

theorem pad32_ge (n : Nat) : n ≤ pad32 n := by
  unfold pad32; omega

theorem beBytes32_of_lt (n : Nat) (h : n < 2 ^ 64) :
    beBytes 32 n = List.replicate 24 0 ++ beBytes 8 n := by
  have : (256 : Nat) ^ 8 = 2 ^ 64 := by norm_num
  exact beBytes_add_eq_replicate_append 24 8 n (by omega)

/-- **C1.** `encode_forwarder_call` produces exactly the claimed ABI layout:
12 zero bytes then the 20-byte address; a 32-byte big-endian word `0x60`;
a 32-byte big-endian word `96 + 32 + pad32 |call_data|`; a 32-byte length word
and the zero-padded `call_data`; a 32-byte length word and the zero-padded
`expected_output`.  Hence the total length is
`96 + 32 + pad32 |call_data| + 32 + pad32 |expected_output|`.  For a
zero-length field the layout degenerates to a length word of `0` followed by
no data and no padding bytes (`pad32 0 = 0`, so both replicate-blocks are
empty).  The length bounds reflect the 32-bit `usize` of the RISC-V guest. -/
theorem encode_forwarder_call_layout
    (fwd cd eo : List Nat) (hf : fwd.length = 20)
    (hc : cd.length < 2 ^ 32) (he : eo.length < 2 ^ 32) :
    encode_forwarder_call fwd cd eo
      = List.replicate 12 0 ++ fwd
        ++ beBytes 32 0x60
        ++ beBytes 32 (96 + 32 + pad32 cd.length)
        ++ (beBytes 32 cd.length ++ cd ++ List.replicate (pad32 cd.length - cd.length) 0)
        ++ (beBytes 32 eo.length ++ eo ++ List.replicate (pad32 eo.length - eo.length) 0)
    ∧ (encode_forwarder_call fwd cd eo).length
      = 96 + 32 + pad32 cd.length + 32 + pad32 eo.length := by
  have h60 : beBytes 32 0x60 = List.replicate 31 0 ++ [0x60] := by
    have h : (0x60 : Nat) < 256 ^ 1 := by norm_num
    rw [show (32 : Nat) = 31 + 1 from rfl, beBytes_add_eq_replicate_append 31 1 0x60 h]
    rfl
  have hoff : beBytes 32 (96 + 32 + pad32 cd.length)
      = List.replicate 24 0 ++ beBytes 8 (96 + (32 + ((cd.length + 31) / 32) * 32)) := by
    rw [beBytes32_of_lt _ (by unfold pad32; omega)]
    unfold pad32; ring_nf
  have hlc : beBytes 32 cd.length = List.replicate 24 0 ++ beBytes 8 cd.length :=
    beBytes32_of_lt _ (by omega)
  have hle : beBytes 32 eo.length = List.replicate 24 0 ++ beBytes 8 eo.length :=
    beBytes32_of_lt _ (by omega)
  constructor
  · rw [h60, hoff, hlc, hle]
    unfold encode_forwarder_call
    rw [pad32_sub, pad32_sub]
    simp [List.append_assoc]
  · unfold encode_forwarder_call
    simp [List.length_append, beBytes_length]
    have h1 := pad32_ge cd.length
    have h2 := pad32_ge eo.length
    rw [pad32_sub, pad32_sub]
    unfold pad32 at *
    omega

/-- Witness for C1 at a concrete input: a 20-byte address, a 3-byte
`call_data` and an empty `expected_output` (exercising the zero-length edge
case: a zero length word and no padding). -/
theorem encode_forwarder_call_layout_witness :
    (List.replicate 20 0x11 : List Nat).length = 20
    ∧ encode_forwarder_call (List.replicate 20 0x11) [1, 2, 3] []
      = List.replicate 12 0 ++ List.replicate 20 0x11
        ++ beBytes 32 0x60 ++ beBytes 32 160
        ++ (beBytes 32 3 ++ [1, 2, 3] ++ List.replicate 29 0)
        ++ (beBytes 32 0 ++ [] ++ List.replicate 0 0)
    ∧ (encode_forwarder_call (List.replicate 20 0x11) [1, 2, 3] []).length = 192 := by
  have h := encode_forwarder_call_layout (List.replicate 20 0x11) [1, 2, 3] []
    (by decide) (by decide) (by decide)
  refine ⟨by decide, ?_, ?_⟩
  · have h1 := h.1
    norm_num [pad32] at h1 ⊢
    exact h1
  · have h2 := h.2
    norm_num [pad32] at h2 ⊢
    exact h2

/-! ## C3: ABI decoding of the produced tuple bytes

The decoder below is the spec side of the round-trip claim.  Modelled from the
spec: the standard ABI head/tail decoding rules for a `(address, bytes, bytes)`
tuple — the address is the last 20 bytes of head word 1, head words 2 and 3 are
big-endian offsets to the two dynamic fields, and each dynamic field is a
32-byte big-endian length word followed by that many data bytes. -/

/-- The 32-byte big-endian word of `b` starting at byte offset `i`. -/
def wordAt (b : List Nat) (i : Nat) : Nat :=
  natOfBytes ((b.drop i).take 32)

/-- ABI head/tail decoder for a `(address, bytes, bytes)` tuple. -/
def decode_forwarder_call (b : List Nat) : List Nat × List Nat × List Nat :=
  let addr := (b.drop 12).take 20
  let off1 := wordAt b 32
  let off2 := wordAt b 64
  let len1 := wordAt b off1
  let cd := (b.drop (off1 + 32)).take len1
  let len2 := wordAt b off2
  let eo := (b.drop (off2 + 32)).take len2
  (addr, cd, eo)

theorem extract_at {α : Type} (pre mid post : List α) (n k : Nat)
    (hpre : pre.length = n) (hmid : mid.length = k) :
    ((pre ++ (mid ++ post)).drop n).take k = mid := by
  rw [List.drop_left' hpre, List.take_left' hmid]

/-- **C3.** Round-trip: decoding the bytes produced by `encode_forwarder_call`
by the ABI head/tail rules for `(address, bytes, bytes)` recovers the original
triple exactly.  Length bounds as in C1 (32-bit guest `usize`). -/
theorem decode_encode_forwarder_call
    (fwd cd eo : List Nat) (hf : fwd.length = 20)
    (hc : cd.length < 2 ^ 32) (he : eo.length < 2 ^ 32) :
    decode_forwarder_call (encode_forwarder_call fwd cd eo) = (fwd, cd, eo) := by
  have h2_64 : (2 : Nat) ^ 64 = 256 ^ 8 := by norm_num
  set off : Nat := 96 + (32 + ((cd.length + 31) / 32) * 32) with hoff_def
  set padc : Nat := (32 - cd.length % 32) % 32 with hpadc_def
  set pade : Nat := (32 - eo.length % 32) % 32 with hpade_def
  set b := encode_forwarder_call fwd cd eo with hb
  have hbeq : b = List.replicate 12 0
      ++ (fwd
      ++ ((List.replicate 31 0 ++ [0x60])
      ++ ((List.replicate 24 0 ++ beBytes 8 off)
      ++ ((List.replicate 24 0 ++ beBytes 8 cd.length)
      ++ (cd
      ++ (List.replicate padc 0
      ++ ((List.replicate 24 0 ++ beBytes 8 eo.length)
      ++ (eo
      ++ List.replicate pade 0)))))))) := by
    rw [hb]; simp [encode_forwarder_call, List.append_assoc]
  -- the address field
  have haddr : (b.drop 12).take 20 = fwd := by
    rw [hbeq]; exact extract_at _ _ _ 12 20 (by simp) hf
  -- head word 2 = 0x60 = 96
  have hw32 : natOfBytes ((b.drop 32).take 32) = 96 := by
    have hsplit : b = (List.replicate 12 0 ++ fwd)
        ++ ((List.replicate 31 0 ++ [0x60])
        ++ ((List.replicate 24 0 ++ beBytes 8 off)
        ++ ((List.replicate 24 0 ++ beBytes 8 cd.length)
        ++ (cd
        ++ (List.replicate padc 0
        ++ ((List.replicate 24 0 ++ beBytes 8 eo.length)
        ++ (eo
        ++ List.replicate pade 0))))))) := by
      rw [hbeq]; simp [List.append_assoc]
    rw [hsplit, extract_at _ _ _ 32 32 (by simp [hf]) (by simp),
      natOfBytes_replicate_zero_append]
    rfl
  -- head word 3 = the offset of the second dynamic field
  have hw64 : natOfBytes ((b.drop 64).take 32) = off := by
    have hsplit : b = (List.replicate 12 0 ++ fwd ++ (List.replicate 31 0 ++ [0x60]))
        ++ ((List.replicate 24 0 ++ beBytes 8 off)
        ++ ((List.replicate 24 0 ++ beBytes 8 cd.length)
        ++ (cd
        ++ (List.replicate padc 0
        ++ ((List.replicate 24 0 ++ beBytes 8 eo.length)
        ++ (eo
        ++ List.replicate pade 0)))))) := by
      rw [hbeq]; simp [List.append_assoc]
    rw [hsplit, extract_at _ _ _ 64 32 (by simp [hf]) (by simp),
      natOfBytes_replicate_zero_append, natOfBytes_beBytes]
    rw [← h2_64]
    omega
  -- length word of call_data at offset 96
  have hw96 : natOfBytes ((b.drop 96).take 32) = cd.length := by
    have hsplit : b = (List.replicate 12 0 ++ fwd ++ (List.replicate 31 0 ++ [0x60])
        ++ (List.replicate 24 0 ++ beBytes 8 off))
        ++ ((List.replicate 24 0 ++ beBytes 8 cd.length)
        ++ (cd
        ++ (List.replicate padc 0
        ++ ((List.replicate 24 0 ++ beBytes 8 eo.length)
        ++ (eo
        ++ List.replicate pade 0))))) := by
      rw [hbeq]; simp [List.append_assoc]
    rw [hsplit, extract_at _ _ _ 96 32 (by simp [hf]) (by simp),
      natOfBytes_replicate_zero_append, natOfBytes_beBytes]
    rw [← h2_64]
    omega
  -- call_data bytes at offset 128
  have hcd : (b.drop (96 + 32)).take cd.length = cd := by
    have hsplit : b = (List.replicate 12 0 ++ fwd ++ (List.replicate 31 0 ++ [0x60])
        ++ (List.replicate 24 0 ++ beBytes 8 off)
        ++ (List.replicate 24 0 ++ beBytes 8 cd.length))
        ++ (cd
        ++ (List.replicate padc 0
        ++ ((List.replicate 24 0 ++ beBytes 8 eo.length)
        ++ (eo
        ++ List.replicate pade 0)))) := by
      rw [hbeq]; simp [List.append_assoc]
    rw [hsplit, extract_at _ _ _ (96 + 32) cd.length (by simp [hf]) rfl]
  -- length word of expected_output at the second offset
  have hwoff : natOfBytes ((b.drop off).take 32) = eo.length := by
    have hsplit : b = (List.replicate 12 0 ++ fwd ++ (List.replicate 31 0 ++ [0x60])
        ++ (List.replicate 24 0 ++ beBytes 8 off)
        ++ (List.replicate 24 0 ++ beBytes 8 cd.length)
        ++ cd ++ List.replicate padc 0)
        ++ ((List.replicate 24 0 ++ beBytes 8 eo.length)
        ++ (eo
        ++ List.replicate pade 0)) := by
      rw [hbeq]; simp [List.append_assoc]
    rw [hsplit, extract_at _ _ _ off 32 (by simp [hf]; omega) (by simp),
      natOfBytes_replicate_zero_append, natOfBytes_beBytes]
    rw [← h2_64]
    omega
  -- expected_output bytes right after its length word
  have heo : (b.drop (off + 32)).take eo.length = eo := by
    have hsplit : b = (List.replicate 12 0 ++ fwd ++ (List.replicate 31 0 ++ [0x60])
        ++ (List.replicate 24 0 ++ beBytes 8 off)
        ++ (List.replicate 24 0 ++ beBytes 8 cd.length)
        ++ cd ++ List.replicate padc 0
        ++ (List.replicate 24 0 ++ beBytes 8 eo.length))
        ++ (eo
        ++ List.replicate pade 0) := by
      rw [hbeq]; simp [List.append_assoc]
    rw [hsplit, extract_at _ _ _ (off + 32) eo.length (by simp [hf]; omega) rfl]
  show ((b.drop 12).take 20,
    (b.drop (wordAt b 32 + 32)).take (wordAt b (wordAt b 32)),
    (b.drop (wordAt b 64 + 32)).take (wordAt b (wordAt b 64))) = (fwd, cd, eo)
  unfold wordAt
  rw [hw32, hw64, hw96, hwoff, haddr, hcd, heo]

/-- Witness for C3 at a concrete input. -/
theorem decode_encode_forwarder_call_witness :
    (List.replicate 20 0x42 : List Nat).length = 20
    ∧ decode_forwarder_call
        (encode_forwarder_call (List.replicate 20 0x42) [0xde, 0xad] [0, 1])
      = (List.replicate 20 0x42, [0xde, 0xad], [0, 1]) :=
  ⟨by decide,
    decode_encode_forwarder_call (List.replicate 20 0x42) [0xde, 0xad] [0, 1]
      (by decide) (by decide) (by decide)⟩

/-! ## `shield_logic.rs`: ERC20 call-data encoders and the external payload

The host code uses the external `alloy` crate for ABI encoding.  `alloy`'s
`SolValue::abi_encode` follows the canonical Solidity ABI rules, modelled here:
a static value occupies one 32-byte big-endian word (addresses left-padded with
12 zero bytes, booleans as 0/1 in the last byte), and a `(address, bytes,
bytes)` tuple uses the head/tail layout proved equal to the guest encoder's
output in C1. -/

/-- `alloy` ABI word for a 20-byte address. -/
def abi_word_address (addr : List Nat) : List Nat :=
  List.replicate 12 0 ++ addr

/-- `alloy` ABI encoding of a `U256` value (`U256::from` of the `u128` amount
is value-preserving, so no truncation occurs for the repository's inputs). -/
def abi_word_uint256 (n : Nat) : List Nat :=
  beBytes 32 n

/-- `alloy` ABI encoding of a boolean (`true.abi_encode()`). -/
def abi_encode_bool (b : Bool) : List Nat :=
  List.replicate 31 0 ++ [if b then 1 else 0]

/-- `alloy` ABI encoding of the dynamic tuple `(address, bytes, bytes)`
(the `(forwarder, call_data, expected_output).abi_encode()` call in
`build_external_payload`). -/
def abi_encode_address_bytes_bytes (addr cd eo : List Nat) : List Nat :=
  List.replicate 12 0 ++ addr
    ++ beBytes 32 0x60
    ++ beBytes 32 (96 + 32 + pad32 cd.length)
    ++ (beBytes 32 cd.length ++ cd ++ List.replicate (pad32 cd.length - cd.length) 0)
    ++ (beBytes 32 eo.length ++ eo ++ List.replicate (pad32 eo.length - eo.length) 0)

/-- `ShieldLogicWitness::encode_transfer`: selector `a9059cbb` followed by the
ABI encoding of `(address, uint256)`. -/
def encode_transfer (toAddr : List Nat) (amount : Nat) : List Nat :=
  [0xa9, 0x05, 0x9c, 0xbb] ++ (abi_word_address toAddr ++ abi_word_uint256 amount)

/-- `ShieldLogicWitness::encode_transfer_from`: selector `23b872dd` followed by
the ABI encoding of `(address, address, uint256)`. -/
def encode_transfer_from (fromAddr toAddr : List Nat) (amount : Nat) : List Nat :=
  [0x23, 0xb8, 0x72, 0xdd]
    ++ (abi_word_address fromAddr ++ abi_word_address toAddr ++ abi_word_uint256 amount)

/-- `ExpirableBlob` from the external `arm` crate.  The source stores
`bytes_to_words(blob_data)` — a pure repacking of the byte string into 32-bit
words performed by the external library; the blob is modelled at the byte
level, before that repacking. -/
structure ExpirableBlob where
  blob : List Nat
  deletion_criterion : Nat
  deriving DecidableEq, Repr

/-- The fields of `ShieldLogicWitness` used by `build_external_payload`.
The remaining fields (`resource`, `action_tree_root`, `nf_key`) belong to the
external resource-machine library and are only used by `constrain`'s tag
computation, not by the payload builder.  `forwarder_address` and
`user_address` are 20-byte arrays in the source; `amount` is a `u128`. -/
structure ShieldLogicWitness where
  is_consumed : Bool
  forwarder_address : List Nat
  user_address : List Nat
  amount : Nat
  is_shield : Bool
  deriving DecidableEq, Repr

/-- Line-by-line translation of `ShieldLogicWitness::build_external_payload`. -/
def build_external_payload (w : ShieldLogicWitness) : List ExpirableBlob :=
  if w.is_consumed && w.is_shield then
    []
  else if !w.is_consumed && !w.is_shield then
    []
  else
    let call_data :=
      if w.is_shield then
        encode_transfer_from w.user_address w.forwarder_address w.amount
      else
        encode_transfer w.user_address w.amount
    let expected_output := abi_encode_bool true
    [{ blob := abi_encode_address_bytes_bytes w.forwarder_address call_data expected_output,
       deletion_criterion := DELETION_CRITERION_NEVER }]

/-- **C2.** `build_external_payload` returns `[]` exactly when
`(is_consumed ∧ is_shield) ∨ (¬is_consumed ∧ ¬is_shield)`, and in every other
case returns exactly one blob whose data is the ABI encoding of
`(forwarder_address, call_data, expected_output)` with `expected_output` the
ABI encoding of `true`, `call_data` chosen by direction
(`transferFrom(user, forwarder, amount)` for shield, `transfer(user, amount)`
for unshield), and deletion criterion `Never` (value 1). -/
theorem build_external_payload_spec (w : ShieldLogicWitness)
    (hf : w.forwarder_address.length = 20) (hu : w.user_address.length = 20)
    (ha : w.amount < 2 ^ 128) :
    (build_external_payload w = []
      ↔ ((w.is_consumed = true ∧ w.is_shield = true)
          ∨ (w.is_consumed = false ∧ w.is_shield = false)))
    ∧ (w.is_consumed ≠ w.is_shield →
        build_external_payload w
          = [{ blob := abi_encode_address_bytes_bytes w.forwarder_address
                  (if w.is_shield then
                    encode_transfer_from w.user_address w.forwarder_address w.amount
                  else
                    encode_transfer w.user_address w.amount)
                  (abi_encode_bool true),
               deletion_criterion := 1 }]) := by
  cases hc : w.is_consumed <;> cases hs : w.is_shield <;>
    simp [build_external_payload, hc, hs, DELETION_CRITERION_NEVER]

/-- Witness for C2: a created resource in shield direction emits exactly the
`transferFrom` payload; a consumed resource in shield direction emits none. -/
theorem build_external_payload_spec_witness :
    (build_external_payload
        { is_consumed := false, forwarder_address := List.replicate 20 2,
          user_address := List.replicate 20 3, amount := 5, is_shield := true }
      = [{ blob := abi_encode_address_bytes_bytes (List.replicate 20 2)
              (encode_transfer_from (List.replicate 20 3) (List.replicate 20 2) 5)
              (abi_encode_bool true),
           deletion_criterion := 1 }])
    ∧ build_external_payload
        { is_consumed := true, forwarder_address := List.replicate 20 2,
          user_address := List.replicate 20 3, amount := 5, is_shield := true }
      = [] := by
  have h1 := build_external_payload_spec
    { is_consumed := false, forwarder_address := List.replicate 20 2,
      user_address := List.replicate 20 3, amount := 5, is_shield := true }
    (by decide) (by decide) (by norm_num)
  have h2 := build_external_payload_spec
    { is_consumed := true, forwarder_address := List.replicate 20 2,
      user_address := List.replicate 20 3, amount := 5, is_shield := true }
    (by decide) (by decide) (by norm_num)
  refine ⟨?_, ?_⟩
  · have := h1.2 (by decide)
    simpa using this
  · exact h2.1.mpr (Or.inl ⟨rfl, rfl⟩)

/-- **C6.** `encode_transfer(to, amount)` is the selector `a9 05 9c bb`
followed by the 32-byte left-zero-padded address and the 32-byte big-endian
amount, and `encode_transfer_from(from, to, amount)` is the selector
`23 b8 72 dd` followed by the ABI encoding of `(address, address, uint256)`. -/
theorem encode_transfer_selectors
    (fromAddr toAddr : List Nat) (amount : Nat)
    (hfrom : fromAddr.length = 20) (hto : toAddr.length = 20) (ha : amount < 2 ^ 256) :
    (encode_transfer toAddr amount).take 4 = [0xa9, 0x05, 0x9c, 0xbb]
    ∧ (encode_transfer toAddr amount).drop 4
      = (List.replicate 12 0 ++ toAddr) ++ beBytes 32 amount
    ∧ (encode_transfer_from fromAddr toAddr amount).take 4 = [0x23, 0xb8, 0x72, 0xdd]
    ∧ (encode_transfer_from fromAddr toAddr amount).drop 4
      = (List.replicate 12 0 ++ fromAddr) ++ ((List.replicate 12 0 ++ toAddr)
          ++ beBytes 32 amount) := by
  refine ⟨?_, ?_, ?_, ?_⟩
  · rw [encode_transfer, List.take_left' (by rfl)]
  · rw [encode_transfer, List.drop_left' (by rfl)]
    simp [abi_word_address, abi_word_uint256]
  · rw [encode_transfer_from, List.take_left' (by rfl)]
  · rw [encode_transfer_from, List.drop_left' (by rfl)]
    simp [abi_word_address, abi_word_uint256]

/-- Witness for C6 at the spec's example: `to = 0x1111...11`,
`amount = 1_000_000`; the encoding ends in the big-endian word `...0F4240`. -/
theorem encode_transfer_selectors_witness :
    (encode_transfer (List.replicate 20 0x11) 1000000).take 4
      = [0xa9, 0x05, 0x9c, 0xbb]
    ∧ (encode_transfer (List.replicate 20 0x11) 1000000).drop 4
      = (List.replicate 12 0 ++ List.replicate 20 0x11) ++ beBytes 32 1000000
    ∧ (encode_transfer (List.replicate 20 0x11) 1000000).drop 65
      = [0x0f, 0x42, 0x40]
    ∧ (encode_transfer_from (List.replicate 20 0x22) (List.replicate 20 0x11)
          1000000).take 4
      = [0x23, 0xb8, 0x72, 0xdd] := by
  have h := encode_transfer_selectors (List.replicate 20 0x22)
    (List.replicate 20 0x11) 1000000 (by decide) (by decide) (by norm_num)
  exact ⟨h.1, h.2.1, by decide, h.2.2.1⟩

/-! ## The guest logic circuit `ForwarderLogicWitness::constrain`

The resource tag computation (`self.resource.tag(...)`) is owned by the
external `arm` library, which can fail with an `ArmError`; its outcome is
passed to the embedded `constrain` as an explicit `Except` argument.  The
`assert_eq!` panic is modelled as an explicit `panic` outcome. -/

/-- The two `Resource` fields read by `constrain` itself (the rest of the
resource is only consumed by the external tag computation). -/
structure Resource where
  is_ephemeral : Bool
  quantity : Nat
  deriving DecidableEq, Repr

/-- `AppData` from the external `arm` crate (payload lists only). -/
structure AppData where
  resource_payload : List ExpirableBlob
  discovery_payload : List ExpirableBlob
  external_payload : List ExpirableBlob
  application_payload : List ExpirableBlob
  deriving DecidableEq, Repr

/-- `LogicInstance` from the external `arm` crate; `tag` and `root` are
32-byte digests, modelled as byte strings. -/
structure LogicInstance where
  tag : List Nat
  is_consumed : Bool
  root : List Nat
  app_data : AppData
  deriving DecidableEq, Repr

/-- `ForwarderLogicWitness` (guest).  `nf_key` is only consumed by the
external tag computation and is omitted; the tag outcome is instead an
explicit argument of `constrain`. -/
structure ForwarderLogicWitness where
  resource : Resource
  action_tree_root : List Nat
  is_consumed : Bool
  forwarder_address : List Nat
  call_data : List Nat
  expected_output : List Nat
  include_external_call : Bool
  deriving DecidableEq, Repr

/-- Outcome of running `constrain`: a `LogicInstance`, a propagated
`ArmError`, or a Rust panic (`assert_eq!` failure). -/
inductive ConstrainResult where
  | ok : LogicInstance → ConstrainResult
  | err : String → ConstrainResult
  | panic : String → ConstrainResult
  deriving DecidableEq, Repr

/-- Line-by-line translation of `ForwarderLogicWitness::constrain`;
`tag_result` is the outcome of the external `self.resource.tag(...)` call. -/
def constrain (w : ForwarderLogicWitness) (tag_result : Except String (List Nat)) :
    ConstrainResult :=
  match tag_result with
  | .error e => .err e
  | .ok tag =>
    if w.resource.is_ephemeral && !(w.resource.quantity == 0) then
      .panic "Ephemeral resources must have quantity=0"
    else
      let external_payload :=
        if w.include_external_call && !w.call_data.isEmpty then
          [{ blob := encode_forwarder_call w.forwarder_address w.call_data
                w.expected_output,
             deletion_criterion := DELETION_CRITERION_NEVER }]
        else []
      .ok { tag := tag, is_consumed := w.is_consumed, root := w.action_tree_root,
            app_data := { resource_payload := [], discovery_payload := [],
                          external_payload := external_payload,
                          application_payload := [] } }

/-- **C10.** `constrain` asserts that an ephemeral resource has quantity 0:
with `is_ephemeral = true` and `quantity ≠ 0` it aborts at the assertion
(never returns a `LogicInstance`), and under the precondition
`is_ephemeral → quantity = 0` the assertion is unreachable and `constrain`
returns normally whenever the tag computation succeeds. -/
theorem constrain_ephemeral_assertion
    (w : ForwarderLogicWitness) (t : List Nat) :
    (w.resource.is_ephemeral = true → w.resource.quantity ≠ 0 →
      constrain w (.ok t) = .panic "Ephemeral resources must have quantity=0")
    ∧ ((w.resource.is_ephemeral = true → w.resource.quantity = 0) →
      ∃ inst : LogicInstance, constrain w (.ok t) = .ok inst) := by
  constructor
  · intro he hq
    simp [constrain, he, hq]
  · intro hpre
    have hcond : (w.resource.is_ephemeral && !(w.resource.quantity == 0)) = false := by
      cases he : w.resource.is_ephemeral
      · simp
      · simp [hpre he]
    let payload : List ExpirableBlob :=
      if w.include_external_call && !w.call_data.isEmpty then
        [{ blob := encode_forwarder_call w.forwarder_address w.call_data
              w.expected_output,
           deletion_criterion := DELETION_CRITERION_NEVER }]
      else []
    refine ⟨{ tag := t, is_consumed := w.is_consumed, root := w.action_tree_root,
              app_data := { resource_payload := [], discovery_payload := [],
                            external_payload := payload,
                            application_payload := [] } }, ?_⟩
    simp only [constrain, hcond, Bool.false_eq_true, if_false]

/-- Witness for C10: an ephemeral resource of nonzero quantity panics; a
compliant witness produces a `LogicInstance`. -/
theorem constrain_ephemeral_assertion_witness :
    constrain
        { resource := { is_ephemeral := true, quantity := 7 },
          action_tree_root := [], is_consumed := false, forwarder_address := [],
          call_data := [], expected_output := [], include_external_call := false }
        (.ok [])
      = .panic "Ephemeral resources must have quantity=0"
    ∧ ∃ inst : LogicInstance, constrain
        { resource := { is_ephemeral := true, quantity := 0 },
          action_tree_root := [], is_consumed := false, forwarder_address := [],
          call_data := [], expected_output := [], include_external_call := false }
        (.ok [])
      = .ok inst := by
  constructor
  · exact (constrain_ephemeral_assertion _ []).1 rfl (by decide)
  · exact (constrain_ephemeral_assertion _ []).2 (fun _ => rfl)

/-! ## SHA-256 (the external `sha2` crate)

Both identifier generators hash with SHA-256 through the external `sha2`
crate.  The function is fully implemented here (FIPS 180-4) so that identifier
computations are executable.  32-bit words are `Nat` values `< 2 ^ 32`;
bitwise operations use a fueled structural recursion so that concrete hashes
reduce inside the kernel. -/

/-- Combine the low `k` bits of `a` and `b` pointwise with `f`. -/
def bitOp (f : Bool → Bool → Bool) : Nat → Nat → Nat → Nat
  | 0, _, _ => 0
  | k + 1, a, b =>
    (if f (a % 2 = 1) (b % 2 = 1) then 1 else 0) + 2 * bitOp f k (a / 2) (b / 2)

def xor32 (a b : Nat) : Nat := bitOp (fun x y => x != y) 32 a b

def and32 (a b : Nat) : Nat := bitOp (fun x y => x && y) 32 a b

def not32 (a : Nat) : Nat := 2 ^ 32 - 1 - a % 2 ^ 32

def rotr32 (x n : Nat) : Nat := x / 2 ^ n + x % 2 ^ n * 2 ^ (32 - n)

def shr32 (x n : Nat) : Nat := x / 2 ^ n

def xor3 (a b c : Nat) : Nat := xor32 (xor32 a b) c

def bigSigma0 (x : Nat) : Nat := xor3 (rotr32 x 2) (rotr32 x 13) (rotr32 x 22)

def bigSigma1 (x : Nat) : Nat := xor3 (rotr32 x 6) (rotr32 x 11) (rotr32 x 25)

def smallSigma0 (x : Nat) : Nat := xor3 (rotr32 x 7) (rotr32 x 18) (shr32 x 3)

def smallSigma1 (x : Nat) : Nat := xor3 (rotr32 x 17) (rotr32 x 19) (shr32 x 10)

/-- The first 64 primes, from which FIPS 180-4 derives the SHA-256
constants. -/
def sha_primes : List Nat :=
  [2, 3, 5, 7, 11, 13, 17, 19, 23, 29, 31, 37, 41, 43, 47, 53, 59, 61, 67,
   71, 73, 79, 83, 89, 97, 101, 103, 107, 109, 113, 127, 131, 137, 139, 149,
   151, 157, 163, 167, 173, 179, 181, 191, 193, 197, 199, 211, 223, 227, 229,
   233, 239, 241, 251, 257, 263, 269, 271, 277, 281, 283, 293, 307, 311]

/-- Largest `r` with `r ^ p ≤ n`, by binary descent over `bits` bits. -/
def iroot (p n bits : Nat) : Nat :=
  (List.range bits).reverse.foldl
    (fun r i => let c := r + 2 ^ i; if c ^ p ≤ n then c else r) 0

/-- The SHA-256 initial hash state: the 32 fractional bits of the square
roots of the first 8 primes (FIPS 180-4 §5.3.3); `sha256_nil` checks the
result against the standard's test vector. -/
def H256 : List Nat :=
  (sha_primes.take 8).map (fun p => iroot 2 (p * 2 ^ 64) 38 % 2 ^ 32)

/-- The SHA-256 round constants: the 32 fractional bits of the cube roots of
the first 64 primes (FIPS 180-4 §4.2.2). -/
def K256 : List Nat :=
  sha_primes.map (fun p => iroot 3 (p * 2 ^ 96) 36 % 2 ^ 32)

/-- Extend the message schedule by one word. -/
def scheduleStep (ws : List Nat) : List Nat :=
  let n := ws.length
  let w2 := ws.getD (n - 2) 0
  let w7 := ws.getD (n - 7) 0
  let w15 := ws.getD (n - 15) 0
  let w16 := ws.getD (n - 16) 0
  ws ++ [(smallSigma1 w2 + w7 + smallSigma0 w15 + w16) % 2 ^ 32]

/-- The 64-word message schedule of a 16-word block. -/
def schedule (block : List Nat) : List Nat :=
  scheduleStep^[48] block

/-- One SHA-256 compression round on the 8-word working state. -/
def shaRound (st : List Nat) (kw : Nat × Nat) : List Nat :=
  let a := st.getD 0 0
  let b := st.getD 1 0
  let c := st.getD 2 0
  let d := st.getD 3 0
  let e := st.getD 4 0
  let f := st.getD 5 0
  let g := st.getD 6 0
  let h := st.getD 7 0
  let t1 := (h + bigSigma1 e + xor32 (and32 e f) (and32 (not32 e) g)
      + kw.1 + kw.2) % 2 ^ 32
  let t2 := (bigSigma0 a + xor3 (and32 a b) (and32 a c) (and32 b c)) % 2 ^ 32
  [(t1 + t2) % 2 ^ 32, a, b, c, (d + t1) % 2 ^ 32, e, f, g]

/-- Compress one 16-word block into the hash state. -/
def compressBlock (hs : List Nat) (block : List Nat) : List Nat :=
  let st := (K256.zip (schedule block)).foldl shaRound hs
  List.zipWith (fun x y => (x + y) % 2 ^ 32) hs st

/-- Split a list into chunks of `n` elements (fuel-based so that concrete
values reduce in the kernel; the fuel `l.length` always suffices). -/
def chunksAux (n : Nat) : Nat → List Nat → List (List Nat)
  | 0, _ => []
  | _ + 1, [] => []
  | fuel + 1, x :: xs => (x :: xs).take n :: chunksAux n fuel ((x :: xs).drop n)

def chunks (n : Nat) (l : List Nat) : List (List Nat) := chunksAux n l.length l

/-- SHA-256 padding: `0x80`, zeros, and the 64-bit big-endian bit length. -/
def padMessage (msg : List Nat) : List Nat :=
  msg ++ [0x80] ++ List.replicate ((64 - (msg.length + 9) % 64) % 64) 0
    ++ beBytes 8 (msg.length * 8)

/-- SHA-256 of a byte string. -/
def sha256 (msg : List Nat) : List Nat :=
  let blocks := (chunks 64 (padMessage msg)).map (fun b => (chunks 4 b).map natOfBytes)
  ((blocks.foldl compressBlock H256).map (beBytes 4)).flatten

set_option maxRecDepth 10000 in
set_option maxHeartbeats 4000000 in
/-- Sanity check: the FIPS 180-4 test vector for the empty message. -/
theorem sha256_nil :
    sha256 [] = [0xe3, 0xb0, 0xc4, 0x42, 0x98, 0xfc, 0x1c, 0x14, 0x9a, 0xfb,
      0xf4, 0xc8, 0x99, 0x6f, 0xb9, 0x24, 0x27, 0xae, 0x41, 0xe4, 0x64, 0x9b,
      0x93, 0x4c, 0xa4, 0x95, 0x99, 0x1b, 0x78, 0x52, 0xb8, 0x55] := by
  decide

theorem foldl_shaRound_length (l : List (Nat × Nat)) (hs : List Nat)
    (h : hs.length = 8) : (l.foldl shaRound hs).length = 8 := by
  induction l generalizing hs with
  | nil => exact h
  | cons kw l ih => exact ih _ rfl

theorem compressBlock_length (hs block : List Nat) (h : hs.length = 8) :
    (compressBlock hs block).length = 8 := by
  simp [compressBlock, foldl_shaRound_length _ _ h, h]

theorem foldl_compressBlock_length (blocks : List (List Nat)) (hs : List Nat)
    (h : hs.length = 8) : (blocks.foldl compressBlock hs).length = 8 := by
  induction blocks generalizing hs with
  | nil => exact h
  | cons b blocks ih => exact ih _ (compressBlock_length _ _ h)

theorem flatten_map_beBytes4_length (hs : List Nat) :
    ((hs.map (beBytes 4)).flatten).length = 4 * hs.length := by
  induction hs with
  | nil => rfl
  | cons x xs ih =>
    simp only [List.map_cons, List.flatten_cons, List.length_append, ih,
      beBytes_length, List.length_cons]
    omega

theorem sha256_length (msg : List Nat) : (sha256 msg).length = 32 := by
  have h8 := foldl_compressBlock_length
    ((chunks 64 (padMessage msg)).map (fun b => (chunks 4 b).map natOfBytes))
    H256 rfl
  show ((((chunks 64 (padMessage msg)).map
      (fun b => (chunks 4 b).map natOfBytes)).foldl compressBlock H256).map
      (beBytes 4)).flatten.length = 32
  rw [flatten_map_beBytes4_length, h8]

/-! ## Identifier generation (`main.rs` / `prover.rs`)

`hex::encode` produces lowercase hex. Strings hashed by the generators are
ASCII, so `as_bytes` is modelled by mapping `Char.toNat`. -/

/-- Lowercase hex digit for a value `< 16`. -/
def hexDigitChar (n : Nat) : Char :=
  Char.ofNat (if n < 10 then 48 + n else 87 + n)

/-- Lowercase hex characters of a byte string (`hex::encode`). -/
def hexChars : List Nat → List Char
  | [] => []
  | b :: rest => hexDigitChar (b / 16 % 16) :: hexDigitChar (b % 16) :: hexChars rest

/-- `hex::encode` as a `String`. -/
def hexEncode (bs : List Nat) : String := String.mk (hexChars bs)

theorem hexChars_length (bs : List Nat) : (hexChars bs).length = 2 * bs.length := by
  induction bs with
  | nil => rfl
  | cons b rest ih => simp [hexChars, ih]; omega

/-- UTF-8 bytes of an ASCII string (`str::as_bytes`). -/
def strBytes (s : String) : List Nat := s.toList.map Char.toNat

/-- Line-by-line translation of `generate_job_id` (`main.rs`): SHA-256 over
the little-endian `u64` wall-clock *seconds* and 16 random bytes, keeping the
first 8 digest bytes as 16 lowercase hex characters.  The request is not an
input: the job id does not depend on it. -/
def generate_job_id (timestamp_secs : Nat) (random_bytes : List Nat) : String :=
  String.mk (hexChars ((sha256 (leBytes 8 timestamp_secs ++ random_bytes)).take 8))

/-- Line-by-line translation of `ProverService::generate_proof_id`
(`prover.rs`): SHA-256 over the request kind, the salient request fields and
the little-endian `u128` wall-clock nanoseconds, truncated to the first 16 hex
characters of the digest. -/
def generate_proof_id (proof_type : String) (inputs : List String) (nanos : Nat) :
    String :=
  String.mk ((hexChars (sha256 (strBytes proof_type
    ++ (inputs.map strBytes).flatten ++ leBytes 16 nanos))).take 16)

/-- Modelled from the spec: the claimed job-id scheme — "hash over (request
kind, salient request fields, wall-clock nanoseconds), truncated to a
fixed-width hex string" — instantiated with the repository's hash (SHA-256),
serialization (UTF-8 field concatenation, little-endian nanoseconds) and
truncation width (16 hex characters), exactly as `generate_proof_id` does. -/
def spec_claimed_job_id (kind : String) (fields : List String) (nanos : Nat) :
    String :=
  String.mk ((hexChars (sha256 (strBytes kind
    ++ (fields.map strBytes).flatten ++ leBytes 16 nanos))).take 16)

set_option maxRecDepth 10000 in
set_option maxHeartbeats 12000000 in
/-- **C8 (counterexample).** The job identifier returned by submit is
`generate_job_id`, which hashes only the wall-clock seconds and 16 random
bytes.  At a concrete submission — wall clock `1700000000123456789` ns (hence
`1700000000` s), random bytes all `0xab`, a shield request with fields
`["USDC", "1000000", "0x01"]` — the actual job id differs from the id the
claimed scheme produces, so the claim as stated is false. -/
theorem generate_job_id_not_request_hash :
    generate_job_id (1700000000123456789 / 1000000000) (List.replicate 16 0xab)
      ≠ spec_claimed_job_id "shield" ["USDC", "1000000", "0x01"]
          1700000000123456789 := by
  decide

/-- **C8 (amended).** The *proof* identifier (`generate_proof_id`) follows the
claimed scheme — SHA-256 over the request kind, the salient request fields and
the wall-clock nanoseconds, truncated to 16 hex characters — while the *job*
identifier returned by submit (`generate_job_id`) is SHA-256 over only the
wall-clock seconds and 16 random bytes, also truncated to 16 hex characters.
Both ids have the fixed width 16. -/
theorem job_and_proof_id_scheme (kind : String) (fields : List String)
    (nanos ts : Nat) (rnd : List Nat) :
    generate_proof_id kind fields nanos = spec_claimed_job_id kind fields nanos
    ∧ (generate_proof_id kind fields nanos).length = 16
    ∧ generate_job_id ts rnd
      = String.mk (hexChars ((sha256 (leBytes 8 ts ++ rnd)).take 8))
    ∧ (generate_job_id ts rnd).length = 16 := by
  refine ⟨rfl, ?_, rfl, ?_⟩
  · show ((hexChars (sha256 (strBytes kind
      ++ (fields.map strBytes).flatten ++ leBytes 16 nanos))).take 16).length = 16
    rw [List.length_take, hexChars_length, sha256_length]
    omega
  · show (hexChars ((sha256 (leBytes 8 ts ++ rnd)).take 8)).length = 16
    rw [hexChars_length, List.length_take, sha256_length]
    omega

/-! ## Job and proof polling (`main.rs::get_job_status`,
`prover.rs::get_proof_status`)

The job table (`HashMap<String, JobStatus>` behind an `RwLock`) and the proof
session table are modelled as association lists; the handlers take read locks
and perform no writes, which the embedding makes explicit by returning the
(unchanged) table next to the result. -/

/-- `ProofData` (`prover.rs`).  The source field `seal` is renamed
`seal_data`: `seal` is a reserved word in Lean. -/
structure ProofData where
  journal : String
  seal_data : String
  image_id : String
  deriving DecidableEq, Repr

/-- `ProofResponse` (`prover.rs`). -/
structure ProofResponse where
  proof_id : String
  status : String
  proof : Option ProofData
  calldata : Option String
  deriving DecidableEq, Repr

/-- `JobStatus` (`main.rs`). -/
structure JobStatus where
  job_id : String
  status : String
  proof : Option ProofResponse
  error : Option String
  created_at : Nat
  deriving DecidableEq, Repr

/-- The JSON view assembled by `get_job_status` for an existing job:
`job_id` and `status` always; `calldata` and `proof_id` when a proof is
present; `error` when recorded.  (The derived `result` sub-object duplicates
`calldata`/`proof_id` verbatim and is not modelled separately.) -/
structure JobView where
  job_id : String
  status : String
  calldata : Option (Option String)
  proof_id : Option String
  error : Option String
  deriving DecidableEq, Repr

/-- The view `get_job_status` builds from a stored job. -/
def viewOf (j : JobStatus) : JobView :=
  { job_id := j.job_id, status := j.status,
    calldata := j.proof.map (fun p => p.calldata),
    proof_id := j.proof.map (fun p => p.proof_id),
    error := j.error }

/-- Translation of the `get_job_status` handler: look the job up under a read
lock; `None` becomes the "Job not found" error (no write ever happens — the
unchanged table is returned alongside). -/
def get_job_status (jobs : List (String × JobStatus)) (job_id : String) :
    Except String JobView × List (String × JobStatus) :=
  match jobs.lookup job_id with
  | some j => (.ok (viewOf j), jobs)
  | none => (.error ("Job not found: " ++ job_id), jobs)

/-- `ProofSession` (`prover.rs`). -/
structure ProofSession where
  session_id : String
  status : String
  proof : Option ProofData
  deriving DecidableEq, Repr

/-- The `ProverService` state read by `get_proof_status`: the proof session
table and the two mode flags (the Bonsai endpoint configuration is only used
by the unmodelled network paths). -/
structure ProverService where
  proofs : List (String × ProofSession)
  mock_mode : Bool
  use_real_arm : Bool
  deriving DecidableEq, Repr

/-- Translation of `ProverService::get_proof_status`: look the proof up; on a
miss, when neither mock mode nor real-ARM mode is set the code falls through
to `check_bonsai_status`, which (as written) re-locks and performs the same
lookup again, so every mode ends in the "Proof not found" error.  No branch
writes to the table. -/
def get_proof_status (svc : ProverService) (proof_id : String) :
    Except String ProofResponse × ProverService :=
  match svc.proofs.lookup proof_id with
  | some s =>
    (.ok { proof_id := proof_id, status := s.status, proof := s.proof,
           calldata := none }, svc)
  | none =>
    if !svc.mock_mode && !svc.use_real_arm then
      match svc.proofs.lookup proof_id with
      | some s =>
        (.ok { proof_id := proof_id, status := s.status, proof := s.proof,
               calldata := none }, svc)
      | none => (.error ("Proof not found: " ++ proof_id), svc)
    else
      (.error ("Proof not found: " ++ proof_id), svc)

/-- **C5.** Polling a never-issued identifier returns a NotFound error (never
a success with empty content), polling never mutates the job or proof tables,
and polling an existing job returns its current snapshot unchanged — so
repeated polls return the same view. -/
theorem poll_not_found_and_immutable
    (jobs : List (String × JobStatus)) (svc : ProverService) (job_id : String) :
    ((get_job_status jobs job_id).2 = jobs)
    ∧ ((get_proof_status svc job_id).2 = svc)
    ∧ (jobs.lookup job_id = none →
        (get_job_status jobs job_id).1 = .error ("Job not found: " ++ job_id))
    ∧ (svc.proofs.lookup job_id = none →
        (get_proof_status svc job_id).1
          = .error ("Proof not found: " ++ job_id))
    ∧ (∀ j, jobs.lookup job_id = some j →
        (get_job_status jobs job_id).1 = .ok (viewOf j))
    ∧ (∀ s, svc.proofs.lookup job_id = some s →
        (get_proof_status svc job_id).1
          = .ok { proof_id := job_id, status := s.status, proof := s.proof,
                  calldata := none }) := by
  refine ⟨?_, ?_, ?_, ?_, ?_, ?_⟩
  · unfold get_job_status
    cases jobs.lookup job_id <;> rfl
  · unfold get_proof_status
    cases h : svc.proofs.lookup job_id
    · simp only [h]
      cases hm : (!svc.mock_mode && !svc.use_real_arm) <;> simp [hm, h]
    · rfl
  · intro h; simp [get_job_status, h]
  · intro h
    unfold get_proof_status
    cases hm : (!svc.mock_mode && !svc.use_real_arm) <;> simp [hm, h]
  · intro j h; simp [get_job_status, h]
  · intro s h; simp [get_proof_status, h]

/-- Witness for C5: an empty job table and a one-entry proof table. -/
theorem poll_not_found_and_immutable_witness :
    (get_job_status [] "deadbeef").1 = .error "Job not found: deadbeef"
    ∧ (get_job_status [] "deadbeef").2 = []
    ∧ (get_proof_status { proofs := [], mock_mode := true, use_real_arm := false }
        "deadbeef").1 = .error "Proof not found: deadbeef"
    ∧ (get_job_status
        [("j1", { job_id := "j1", status := "pending", proof := none,
                  error := none, created_at := 0 })] "j1").1
      = .ok { job_id := "j1", status := "pending", calldata := none,
              proof_id := none, error := none } := by
  have h1 := poll_not_found_and_immutable []
    { proofs := [], mock_mode := true, use_real_arm := false } "deadbeef"
  have h2 := poll_not_found_and_immutable
    [("j1", { job_id := "j1", status := "pending", proof := none,
              error := none, created_at := 0 })]
    { proofs := [], mock_mode := true, use_real_arm := false } "j1"
  exact ⟨h1.2.2.1 rfl, h1.1, h1.2.2.2.1 rfl, h2.2.2.2.2.1 _ rfl⟩

/-! ## Artifact cache (`prover.rs::create_shield_proof_with_forwarder`,
`create_unshield_proof_with_forwarder`)

The filesystem is modelled as an association list from filenames to byte
contents.  External effects — the Docker availability probe and the spawned
`local-prove` subprocess — are modelled as an explicit action trace returned
next to the result, plus oracle inputs for the subprocess outcome
(`run_result`: spawn failure, or exit status and stderr) and for the
filesystem as the subprocess left it (`fs_after`; the subprocess is the only
writer).  The claim under verification concerns the cache-hit branch, which
performs no external action at all. -/

/-- External effects performed by the proof generators. -/
inductive ExtAction where
  | docker_check : ExtAction
  | run_local_prove : List String → ExtAction
  deriving DecidableEq, Repr

/-- The deterministic artifact filename `"shield_{token_lower}_{amount}.bin"`. -/
def shield_proof_file (token : String) (amount : Nat) : String :=
  "shield_" ++ token.toLower ++ "_" ++ toString amount ++ ".bin"

/-- The deterministic artifact filename `"unshield_{token_lower}_{amount}.bin"`. -/
def unshield_proof_file (token : String) (amount : Nat) : String :=
  "unshield_" ++ token.toLower ++ "_" ++ toString amount ++ ".bin"

/-- The error message of the Docker availability guard. -/
def docker_unavailable_msg : String :=
  "Docker not available. Please ensure Docker Desktop is running. Proof generation requires Docker for Groth16 proving."

/-- Translation of `ProverService::create_shield_proof_with_forwarder`:
read the artifact file; on a hit return a completed response built from the
cached bytes (no Docker probe, no subprocess); on a miss probe Docker, run
`local-prove shield`, and re-read the file the subprocess wrote. -/
def create_shield_proof_with_forwarder
    (fs : List (String × List Nat)) (docker_available : Bool)
    (run_result : Except String (Bool × String))
    (fs_after : List (String × List Nat))
    (proof_id token : String) (amount : Nat) (sender : String) :
    Except String ProofResponse × List ExtAction :=
  let proof_file := shield_proof_file token amount
  let run_args : List String :=
    ["shield", "--token", token, "--amount", toString amount, "--sender", sender]
  match fs.lookup proof_file with
  | some calldata =>
    (.ok { proof_id := proof_id, status := "completed",
           proof := some { journal := "shield_" ++ token ++ "_" ++ toString amount,
                           seal_data := hexEncode (calldata.take 64),
                           image_id := "forwarder_logic_v0.1.0" },
           calldata := some ("0x" ++ hexEncode calldata) }, [])
  | none =>
    if !docker_available then
      (.error docker_unavailable_msg, [.docker_check])
    else
      match run_result with
      | .error e =>
        (.error ("Failed to run local-prove: " ++ e),
         [.docker_check, .run_local_prove run_args])
      | .ok (exit_ok, stderr) =>
        match (if exit_ok then fs_after.lookup proof_file else none) with
        | some calldata =>
          (.ok { proof_id := proof_id, status := "completed",
                 proof := some { journal := "shield_" ++ token ++ "_" ++ toString amount,
                                 seal_data := hexEncode (calldata.take 64),
                                 image_id := "forwarder_logic_v0.1.0" },
                 calldata := some ("0x" ++ hexEncode calldata) },
           [.docker_check, .run_local_prove run_args])
        | none =>
          (.error ("local-prove shield failed: " ++ stderr),
           [.docker_check, .run_local_prove run_args])

/-- Translation of `ProverService::create_unshield_proof_with_forwarder`
(identical structure with the `unshield_` filename and `--recipient`). -/
def create_unshield_proof_with_forwarder
    (fs : List (String × List Nat)) (docker_available : Bool)
    (run_result : Except String (Bool × String))
    (fs_after : List (String × List Nat))
    (proof_id token : String) (amount : Nat) (recipient : String) :
    Except String ProofResponse × List ExtAction :=
  let proof_file := unshield_proof_file token amount
  let run_args : List String :=
    ["unshield", "--token", token, "--amount", toString amount,
     "--recipient", recipient]
  match fs.lookup proof_file with
  | some calldata =>
    (.ok { proof_id := proof_id, status := "completed",
           proof := some { journal := "unshield_" ++ token ++ "_" ++ toString amount,
                           seal_data := hexEncode (calldata.take 64),
                           image_id := "forwarder_logic_v0.1.0" },
           calldata := some ("0x" ++ hexEncode calldata) }, [])
  | none =>
    if !docker_available then
      (.error docker_unavailable_msg, [.docker_check])
    else
      match run_result with
      | .error e =>
        (.error ("Failed to run local-prove: " ++ e),
         [.docker_check, .run_local_prove run_args])
      | .ok (exit_ok, stderr) =>
        match (if exit_ok then fs_after.lookup proof_file else none) with
        | some calldata =>
          (.ok { proof_id := proof_id, status := "completed",
                 proof := some { journal := "unshield_" ++ token ++ "_" ++ toString amount,
                                 seal_data := hexEncode (calldata.take 64),
                                 image_id := "forwarder_logic_v0.1.0" },
                 calldata := some ("0x" ++ hexEncode calldata) },
           [.docker_check, .run_local_prove run_args])
        | none =>
          (.error ("local-prove unshield failed: " ++ stderr),
           [.docker_check, .run_local_prove run_args])

/-- **C4.** When the artifact file exists, `create_shield_proof_with_forwarder`
(and likewise the unshield variant) returns a completed response whose
calldata is `"0x"` followed by the hex encoding of the file's bytes, with an
empty external-action trace — neither the Docker availability check nor the
`local-prove` toolchain runs.  The third conjunct is the idempotence
consequence: a first request that misses, runs the toolchain successfully and
reads back the file it wrote (`fs` with the file present) is followed by a
second identical request against that filesystem which takes the cache-hit
branch — same cached calldata, no external actions. -/
theorem cache_hit_skips_external
    (fs_s fs_u fs0 : List (String × List Nat)) (docker : Bool)
    (run_result : Except String (Bool × String)) (stderr : String)
    (pid token : String) (amount : Nat) (sender recipient : String)
    (bytes bytes2 : List Nat)
    (hs : fs_s.lookup (shield_proof_file token amount) = some bytes)
    (hu : fs_u.lookup (unshield_proof_file token amount) = some bytes2)
    (h0 : fs0.lookup (shield_proof_file token amount) = none) :
    create_shield_proof_with_forwarder fs_s docker run_result fs_s pid token
        amount sender
      = (.ok { proof_id := pid, status := "completed",
               proof := some { journal := "shield_" ++ token ++ "_" ++ toString amount,
                               seal_data := hexEncode (bytes.take 64),
                               image_id := "forwarder_logic_v0.1.0" },
               calldata := some ("0x" ++ hexEncode bytes) }, [])
    ∧ create_unshield_proof_with_forwarder fs_u docker run_result fs_u pid token
        amount recipient
      = (.ok { proof_id := pid, status := "completed",
               proof := some { journal := "unshield_" ++ token ++ "_" ++ toString amount,
                               seal_data := hexEncode (bytes2.take 64),
                               image_id := "forwarder_logic_v0.1.0" },
               calldata := some ("0x" ++ hexEncode bytes2) }, [])
    ∧ ((create_shield_proof_with_forwarder fs0 true (.ok (true, stderr)) fs_s pid
          token amount sender).1
        = .ok { proof_id := pid, status := "completed",
                proof := some { journal := "shield_" ++ token ++ "_" ++ toString amount,
                                seal_data := hexEncode (bytes.take 64),
                                image_id := "forwarder_logic_v0.1.0" },
                calldata := some ("0x" ++ hexEncode bytes) }
      ∧ (create_shield_proof_with_forwarder fs_s true (.ok (true, stderr)) fs_s
          pid token amount sender).2 = []) := by
  refine ⟨?_, ?_, ?_, ?_⟩
  · simp [create_shield_proof_with_forwarder, hs]
  · simp [create_unshield_proof_with_forwarder, hu]
  · simp [create_shield_proof_with_forwarder, h0, hs]
  · simp [create_shield_proof_with_forwarder, hs]

/-- Witness for C4 on concrete filesystems holding 2- and 1-byte artifacts. -/
theorem cache_hit_skips_external_witness :
    create_shield_proof_with_forwarder
        [(shield_proof_file "USDC" 1000000, [1, 2])] false (.error "no run")
        [(shield_proof_file "USDC" 1000000, [1, 2])] "p1" "USDC" 1000000 "0x01"
      = (.ok { proof_id := "p1", status := "completed",
               proof := some { journal := "shield_" ++ "USDC" ++ "_" ++ toString 1000000,
                               seal_data := hexEncode ([1, 2].take 64),
                               image_id := "forwarder_logic_v0.1.0" },
               calldata := some ("0x" ++ hexEncode [1, 2]) }, [])
    ∧ create_unshield_proof_with_forwarder
        [(unshield_proof_file "USDC" 1000000, [3])] false (.error "no run")
        [(unshield_proof_file "USDC" 1000000, [3])] "p1" "USDC" 1000000 "0x01"
      = (.ok { proof_id := "p1", status := "completed",
               proof := some { journal := "unshield_" ++ "USDC" ++ "_" ++ toString 1000000,
                               seal_data := hexEncode ([3].take 64),
                               image_id := "forwarder_logic_v0.1.0" },
               calldata := some ("0x" ++ hexEncode [3]) }, []) := by
  have h := cache_hit_skips_external
    [(shield_proof_file "USDC" 1000000, [1, 2])]
    [(unshield_proof_file "USDC" 1000000, [3])]
    [] false (.error "no run") "" "p1" "USDC" 1000000 "0x01" "0x01"
    [1, 2] [3] (by simp) (by simp) (by simp)
  exact ⟨h.1, h.2.1⟩

/-! ## Address parsing (`local_prove.rs::parse_address`,
`shield_logic.rs::parse_address`)

`hex::decode` (external `hex` crate) fails on odd length or non-hex digits
and otherwise yields one byte per digit pair.  `local_prove::parse_address`
returns a `Result` and checks the length explicitly;
`shield_logic::parse_address` has return type `[u8; 20]` and *panics* instead:
`expect` on invalid hex and the `copy_from_slice` length assertion on a
wrong-sized decode.  Panics are modelled as `none`.  Note the source strips
the `0x` prefix differently: `trim_start_matches` (all leading repetitions)
in `local_prove`, `strip_prefix` (at most once) in `shield_logic`. -/

/-- Value of one hex digit. -/
def hexVal (c : Char) : Option Nat :=
  if '0' ≤ c && c ≤ '9' then some (c.toNat - 48)
  else if 'a' ≤ c && c ≤ 'f' then some (c.toNat - 87)
  else if 'A' ≤ c && c ≤ 'F' then some (c.toNat - 55)
  else none

/-- `hex::decode`: fails on odd length or a non-hex digit. -/
def hexDecode : List Char → Option (List Nat)
  | [] => some []
  | [_] => none
  | c1 :: c2 :: rest =>
    match hexVal c1, hexVal c2, hexDecode rest with
    | some h, some l, some r => some ((h * 16 + l) :: r)
    | _, _, _ => none

/-- `str::trim_start_matches("0x")`: strips every leading `0x`. -/
def trimStart0x : List Char → List Char
  | '0' :: 'x' :: r => trimStart0x r
  | s => s

/-- `str::strip_prefix("0x")` composed with `unwrap_or`: strips at most one
leading `0x`. -/
def strip0x : List Char → List Char
  | '0' :: 'x' :: r => r
  | s => s

/-- Translation of `local_prove.rs::parse_address` (diagnostic suffixes of the
error messages elided). -/
def local_prove_parse_address (addr : List Char) : Except String (List Nat) :=
  match hexDecode (trimStart0x addr) with
  | none => .error "Invalid address"
  | some bytes =>
    if bytes.length ≠ 20 then .error "Address must be 20 bytes"
    else .ok bytes

/-- Translation of `shield_logic.rs::parse_address`; `none` is a panic
(`expect` on bad hex, `copy_from_slice` length assertion on a decode whose
length is not 20). -/
def shield_logic_parse_address (s : List Char) : Option (List Nat) :=
  match hexDecode (strip0x s) with
  | none => none
  | some bytes => if bytes.length = 20 then some bytes else none

/-- **C7.** A hex string whose decoded byte length is not 20 is rejected by
both parsers — an error in `local_prove`, a panic (modelled `none`) in
`shield_logic` — and neither parser ever produces a truncated or padded
address: every successfully produced byte string has length exactly 20. -/
theorem parse_address_rejects_bad_length
    (s t : List Char) (bs bt : List Nat)
    (h1 : hexDecode (trimStart0x s) = some bs) (h2 : bs.length ≠ 20)
    (h3 : hexDecode (strip0x t) = some bt) (h4 : bt.length ≠ 20) :
    local_prove_parse_address s = .error "Address must be 20 bytes"
    ∧ shield_logic_parse_address t = none
    ∧ (∀ u r, local_prove_parse_address u = .ok r → r.length = 20)
    ∧ (∀ u r, shield_logic_parse_address u = some r → r.length = 20) := by
  refine ⟨?_, ?_, ?_, ?_⟩
  · simp [local_prove_parse_address, h1, h2]
  · simp [shield_logic_parse_address, h3, h4]
  · intro u r h
    unfold local_prove_parse_address at h
    cases hd : hexDecode (trimStart0x u) with
    | none => simp [hd] at h
    | some bytes =>
      simp only [hd] at h
      by_cases hl : bytes.length = 20
      · rw [if_neg (by omega)] at h
        injection h with h'
        rw [← h']
        exact hl
      · rw [if_pos (by omega)] at h
        exact absurd h (by simp)
  · intro u r h
    unfold shield_logic_parse_address at h
    cases hd : hexDecode (strip0x u) with
    | none => simp [hd] at h
    | some bytes =>
      simp only [hd] at h
      by_cases hl : bytes.length = 20
      · rw [if_pos hl] at h
        injection h with h'
        rw [← h']
        exact hl
      · rw [if_neg hl] at h
        exact absurd h (by simp)

/-- Witness for C7 on the concrete 2-byte hex string `0x1234`. -/
theorem parse_address_rejects_bad_length_witness :
    hexDecode (trimStart0x ['0', 'x', '1', '2', '3', '4']) = some [0x12, 0x34]
    ∧ local_prove_parse_address ['0', 'x', '1', '2', '3', '4']
      = .error "Address must be 20 bytes"
    ∧ shield_logic_parse_address ['0', 'x', '1', '2', '3', '4'] = none := by
  have h := parse_address_rejects_bad_length
    ['0', 'x', '1', '2', '3', '4'] ['0', 'x', '1', '2', '3', '4']
    [0x12, 0x34] [0x12, 0x34] (by decide) (by decide) (by decide) (by decide)
  exact ⟨by decide, h.1, h.2.1⟩

/-! ## Amount parsing and job submission (`prover.rs::parse_token_amount`,
`main.rs::start_shield_job`)

`parse_token_amount` first tries `u128::from_str`; a value above `10^9` is
accepted as already being in smallest units.  Otherwise the string is trimmed,
a leading `.` gets a `0` prepended, and it is parsed as an `f64`, multiplied
by `10^decimals`, rounded, and cast (saturating) to `u128`.  The binary `f64`
value and rounding are modelled exactly over the rationals (a decimal
mantissa and a decimal exponent), with round-half-away-from-zero and
saturation at the `u128` bounds; `inf`/`NaN` literals and binary rounding
error are outside the model.  The error/success split — all that the claims
rely on — is faithful: a string that parses neither as `u128` nor as a float
is an `InvalidInput` error. -/

/-- Value of a decimal digit string. -/
def digitsToNat (l : List Char) : Nat :=
  l.foldl (fun a c => a * 10 + (c.toNat - 48)) 0

/-- `u128::from_str`: optional `+`, at least one digit, all digits, value
below `2^128`. -/
def parse_u128 (s : List Char) : Option Nat :=
  let t := match s with
    | '+' :: r => r
    | _ => s
  if !t.isEmpty && t.all Char.isDigit then
    if digitsToNat t < 2 ^ 128 then some (digitsToNat t) else none
  else none

/-- ASCII whitespace test (`str::trim`; the full Unicode whitespace set is
irrelevant for the repository's decimal inputs). -/
def isWS (c : Char) : Bool :=
  c == ' ' || c == '\t' || c == '\n' || c == '\r'

/-- `str::trim`. -/
def trimChars (s : List Char) : List Char :=
  ((s.dropWhile isWS).reverse.dropWhile isWS).reverse

/-- Split at the first `e`/`E` (mantissa, optional exponent part). -/
def splitExp : List Char → List Char × Option (List Char)
  | [] => ([], none)
  | c :: r =>
    if c == 'e' || c == 'E' then ([], some r)
    else
      let p := splitExp r
      (c :: p.1, p.2)

/-- `f64::from_str` on finite decimal literals: returns the sign, the decimal
mantissa digits' value, and the decimal exponent, so that the parsed value is
`±mantissa · 10^exponent`. -/
def parse_f64 (s : List Char) : Option (Bool × Nat × Int) :=
  let signAndRest : Bool × List Char := match s with
    | '-' :: r => (true, r)
    | '+' :: r => (false, r)
    | _ => (false, s)
  let neg := signAndRest.1
  let me := splitExp signAndRest.2
  let intp := me.1.takeWhile Char.isDigit
  let rest := me.1.drop intp.length
  let fracOpt : Option (List Char) := match rest with
    | [] => some []
    | '.' :: f => if f.all Char.isDigit then some f else none
    | _ => none
  match fracOpt with
  | none => none
  | some frac =>
    if intp.isEmpty && frac.isEmpty then none
    else
      match me.2 with
      | none => some (neg, digitsToNat (intp ++ frac), -(frac.length : Int))
      | some ec =>
        let esAndDigits : Bool × List Char := match ec with
          | '-' :: r => (true, r)
          | '+' :: r => (false, r)
          | _ => (false, ec)
        if !esAndDigits.2.isEmpty && esAndDigits.2.all Char.isDigit then
          let ev : Int :=
            if esAndDigits.1 then -(digitsToNat esAndDigits.2 : Int)
            else (digitsToNat esAndDigits.2 : Int)
          some (neg, digitsToNat (intp ++ frac), ev - frac.length)
        else none

/-- `u128::MAX`. -/
def u128_max : Nat := 2 ^ 128 - 1

/-- The float branch of `parse_token_amount`: trim, normalize a leading `.`,
parse as `f64`, scale by `10^decimals`, round half away from zero, saturate
into `u128` (negative values saturate to 0). -/
def parse_token_amount_float (amount : List Char) (decimals : Nat) :
    Except String Nat :=
  let t := trimChars amount
  let normalized := match t with
    | '.' :: _ => '0' :: t
    | _ => t
  match parse_f64 normalized with
  | none => .error "Invalid amount"
  | some (neg, n, scale) =>
    if neg then .ok 0
    else
      let e : Int := scale + decimals
      if 0 ≤ e then .ok (min (n * 10 ^ e.toNat) u128_max)
      else
        let d := 10 ^ (-e).toNat
        .ok (min ((2 * n + d) / (2 * d)) u128_max)

/-- Uppercase an ASCII letter (`str::to_uppercase` on the token names). -/
def upChar (c : Char) : Char :=
  if 'a' ≤ c && c ≤ 'z' then Char.ofNat (c.toNat - 32) else c

/-- Translation of `prover.rs::parse_token_amount`. -/
def parse_token_amount (amount token : String) : Except String Nat :=
  let decimals : Nat :=
    if token.toList.map upChar = ['U', 'S', 'D', 'C'] then 6
    else if token.toList.map upChar = ['W', 'E', 'T', 'H'] then 18
    else 18
  match parse_u128 amount.toList with
  | some v =>
    if 1000000000 < v then .ok v
    else parse_token_amount_float amount.toList decimals
  | none => parse_token_amount_float amount.toList decimals

/-- The JSON body returned synchronously by `start_shield_job`:
exactly `job_id`, `status` and `message` — never an error field. -/
structure SubmitResponse where
  job_id : String
  status : String
  message : String
  deriving DecidableEq, Repr

/-- `ShieldProofRequest` (`main.rs`). -/
structure ShieldProofRequest where
  token : String
  amount : String
  sender : String
  nullifier_key : String
  deriving DecidableEq, Repr

/-- The synchronous part of the `start_shield_job` handler: unconditionally
insert a `pending` job record and return the job id.  No field of the request
is examined before the handler returns; the spawned background task (modelled
separately by `finish_job`) performs all parsing and proving. -/
def start_shield_job (jobs : List (String × JobStatus))
    (req : ShieldProofRequest) (job_id : String) (now : Nat) :
    SubmitResponse × List (String × JobStatus) :=
  ({ job_id := job_id, status := "pending",
     message := "Proof generation started. Poll /api/job/" ++ job_id
       ++ " for status." },
   (job_id, { job_id := job_id, status := "pending", proof := none,
              error := none, created_at := now }) :: jobs)

/-- Update one job record in the table. -/
def update_job : List (String × JobStatus) → String → (JobStatus → JobStatus) →
    List (String × JobStatus)
  | [], _, _ => []
  | (k, j) :: rest, id, f =>
    if k == id then (k, f j) :: update_job rest id f
    else (k, j) :: update_job rest id f

/-- The tail of the spawned background task: commit the backend outcome to
the job record (`completed` with the proof, or `failed` with the error). -/
def finish_job (jobs : List (String × JobStatus)) (id : String)
    (result : Except String ProofResponse) : List (String × JobStatus) :=
  update_job jobs id (fun j =>
    match result with
    | .ok proof => { j with status := "completed", proof := some proof }
    | .error e => { j with status := "failed", error := some e })

theorem update_job_cons_self (k : String) (j : JobStatus)
    (rest : List (String × JobStatus)) (f : JobStatus → JobStatus) :
    update_job ((k, j) :: rest) k f = (k, f j) :: update_job rest k f := by
  simp [update_job]

/-- **C9 (counterexample).** For the malformed request
`{token := "USDC", amount := "abc", ...}` — whose amount fails validation
(`parse_token_amount` errors) — `start_shield_job` still returns a plain
`pending` response with no error, and a job record *is* created in the job
table, refuting both halves of the claim. -/
theorem validation_error_not_synchronous :
    parse_token_amount "abc" "USDC" = .error "Invalid amount"
    ∧ (start_shield_job []
        { token := "USDC", amount := "abc", sender := "0x01",
          nullifier_key := "00" } "j1" 0).1
      = { job_id := "j1", status := "pending",
          message := "Proof generation started. Poll /api/job/" ++ "j1"
            ++ " for status." }
    ∧ (start_shield_job []
        { token := "USDC", amount := "abc", sender := "0x01",
          nullifier_key := "00" } "j1" 0).2.lookup "j1"
      = some { job_id := "j1", status := "pending", proof := none,
               error := none, created_at := 0 } := by
  refine ⟨rfl, rfl, by decide⟩

/-- **C9 (amended).** For every request — malformed or not —
`start_shield_job` synchronously creates a `pending` job record and returns
the job id with no error; input validation happens only in the background
task, and a validation failure surfaces by the job transitioning to `failed`
with the error text recorded. -/
theorem submit_always_creates_job (jobs : List (String × JobStatus))
    (req : ShieldProofRequest) (job_id : String) (now : Nat) :
    (start_shield_job jobs req job_id now).1
      = { job_id := job_id, status := "pending",
          message := "Proof generation started. Poll /api/job/" ++ job_id
            ++ " for status." }
    ∧ (start_shield_job jobs req job_id now).2.lookup job_id
      = some { job_id := job_id, status := "pending", proof := none,
               error := none, created_at := now }
    ∧ ∀ e, (finish_job (start_shield_job jobs req job_id now).2 job_id
        (.error e)).lookup job_id
      = some { job_id := job_id, status := "failed", proof := none,
               error := some e, created_at := now } := by
  refine ⟨rfl, ?_, ?_⟩
  · simp [start_shield_job, List.lookup]
  · intro e
    have hrec : (start_shield_job jobs req job_id now).2
        = (job_id, { job_id := job_id, status := "pending", proof := none,
                     error := none, created_at := now }) :: jobs := rfl
    rw [hrec]
    unfold finish_job
    rw [update_job_cons_self]
    simp [List.lookup]

end ShieldedActions
